import Mathlib

/-!
Shallow embedding of the rubberband configuration auditor (TypeScript) in Lean 4.

The data model follows `src/utils/types.ts`: every optional field of the
JSON-like configuration becomes an `Option`, JavaScript records become
structures, and `Record<string, T>` objects become association lists kept in
insertion order (the order `Object.entries`/`Object.values` iterates them).
JavaScript truthiness of strings (`""` is falsy) and of booleans
(`undefined`/`false` are falsy) is modelled explicitly where the source
branches on it.

Filesystem and process probes (`fileExists`, `getFilePermissions`,
`readFileSync`, `spawnSync`, the JSON5 parser and the regex engine) are
external collaborators of the audited core; they are passed in as an explicit
environment `FS`, so every scanner stays a pure function of the configuration
and that environment, exactly as the orchestrator invokes them.
-/

namespace Rubberband

/-- Severity levels of `src/utils/types.ts` (`Severity`). -/
inductive Severity where
  | critical
  | high
  | medium
  | low
deriving DecidableEq, Repr

/-- Schema dialects (`SchemaVersion` in `src/utils/types.ts`). -/
inductive SchemaVersion where
  | legacy
  | current
  | unknown
deriving DecidableEq, Repr

/-- Provenance of the detected version (`VersionSource`). -/
inductive VersionSource where
  | cli
  | env
  | config
  | state
  | pkg
  | unknown
deriving DecidableEq, Repr

/-- Version format tag of `OpenClawVersionInfo.format`. -/
inductive VersionFormat where
  | date
  | semver
  | unknownFormat
deriving DecidableEq, Repr

/-- `OpenClawVersionInfo` of `src/utils/types.ts`. -/
structure OpenClawVersionInfo where
  raw : String
  major : Option Nat := none
  minor : Option Nat := none
  patch : Option Nat := none
  format : VersionFormat := .unknownFormat
deriving DecidableEq, Repr

/-- `OpenClawInfo` of `src/utils/types.ts`. -/
structure OpenClawInfo where
  version : Option OpenClawVersionInfo := none
  schema : SchemaVersion := .unknown
  source : VersionSource := .unknown
deriving DecidableEq, Repr

/-- Resolved paths inside `ScanContext`. -/
structure ScanPaths where
  configPath : String := ""
  stateDir : String := ""
deriving DecidableEq, Repr

/-- A persisted suppression record (`Waiver` in `src/utils/types.ts`). -/
structure Waiver where
  code : String
  reason : String := ""
  createdAt : String := ""
  expiresAt : String := ""
  path : Option String := none
deriving DecidableEq, Repr

/-- `ScanContext` of `src/utils/types.ts`. -/
structure ScanContext where
  openClaw : OpenClawInfo := {}
  paths : ScanPaths := {}
  waivers : Option (List Waiver) := none
deriving DecidableEq, Repr

/-- The atomic rule-engine output (`Finding` in `src/utils/types.ts`). -/
structure Finding where
  code : String
  severity : Severity
  title : String := ""
  detail : String := ""
  recommendation : String := ""
  fixable : Bool := false
  path : Option String := none
deriving DecidableEq, Repr

/-! ### Configuration data model (`OpenClawConfig`) -/

/-- Nested auth block `gateway.auth`. -/
structure GatewayAuthConfig where
  mode : Option String := none
  token : Option String := none
deriving DecidableEq, Repr

/-- `gateway` sub-tree. -/
structure GatewayConfig where
  host : Option String := none
  port : Option Nat := none
  bind : Option String := none
  authToken : Option String := none
  auth : Option GatewayAuthConfig := none
deriving DecidableEq, Repr

/-- `controlUI` sub-tree. -/
structure ControlUIConfig where
  enabled : Option Bool := none
  dangerousDeviceAuthBypass : Option Bool := none
deriving DecidableEq, Repr

/-- Legacy webhook block (`WebhookConfig`). -/
structure WebhookConfig where
  enabled : Option Bool := none
  requireAuth : Option Bool := none
deriving DecidableEq, Repr

/-- Current hook-delivery block (`HooksConfig`), restricted to the fields the
core reads. -/
structure HooksConfig where
  enabled : Option Bool := none
  token : Option String := none
deriving DecidableEq, Repr

/-- Legacy nested DM block `channels.<name>.dm`. -/
structure DmConfig where
  policy : Option String := none
deriving DecidableEq, Repr

/-- Per-group settings `channels.<name>.groups.<group>`. -/
structure GroupConfig where
  requireMention : Option Bool := none
deriving DecidableEq, Repr

/-- Per-channel messaging policy (`ChannelConfig`). -/
structure ChannelConfig where
  dmPolicy : Option String := none
  dm : Option DmConfig := none
  allowFrom : Option (List String) := none
  groups : Option (List (String × GroupConfig)) := none
deriving DecidableEq, Repr

/-- `approvals.exec` sub-tree. -/
structure ExecApprovalConfig where
  enabled : Option Bool := none
  mode : Option String := none
  targets : Option (List String) := none
deriving DecidableEq, Repr

/-- `approvals` sub-tree. -/
structure ApprovalsConfig where
  exec : Option ExecApprovalConfig := none
deriving DecidableEq, Repr

/-- `tools.exec` sub-tree (`ExecToolConfig`). -/
structure ExecToolConfig where
  security : Option String := none
  ask : Option String := none
  askFallback : Option String := none
  safeBins : Option (List String) := none
deriving DecidableEq, Repr

/-- `tools.web.fetch` sub-tree (`WebFetchConfig`). -/
structure WebFetchConfig where
  enabled : Option Bool := none
  maxRedirects : Option Int := none
deriving DecidableEq, Repr

/-- `tools.web` sub-tree. -/
structure WebToolsConfig where
  fetch : Option WebFetchConfig := none
deriving DecidableEq, Repr

/-- `tools` sub-tree. -/
structure ToolsConfig where
  allow : Option (List String) := none
  deny : Option (List String) := none
  exec : Option ExecToolConfig := none
  web : Option WebToolsConfig := none
deriving DecidableEq, Repr

/-- `shell` sub-tree. -/
structure ShellConfig where
  enabled : Option Bool := none
  allowedCommands : Option (List String) := none
deriving DecidableEq, Repr

/-- `browser` sub-tree. -/
structure BrowserConfig where
  enabled : Option Bool := none
  sandbox : Option Bool := none
  headless : Option Bool := none
deriving DecidableEq, Repr

/-- `logging` sub-tree. -/
structure LoggingConfig where
  level : Option String := none
  file : Option String := none
deriving DecidableEq, Repr

/-- `rateLimit` sub-tree. -/
structure RateLimitConfig where
  enabled : Option Bool := none
deriving DecidableEq, Repr

/-- `memory.qmd` sub-tree, restricted to the field the core reads. -/
structure QmdConfig where
  command : Option String := none
deriving DecidableEq, Repr

/-- `memory` sub-tree. -/
structure MemoryConfig where
  persistent : Option Bool := none
  encrypted : Option Bool := none
  backend : Option String := none
  qmd : Option QmdConfig := none
deriving DecidableEq, Repr

/-- `updates` sub-tree. -/
structure UpdatesConfig where
  autoInstall : Option Bool := none
deriving DecidableEq, Repr

/-- `skills[i].heartbeat` sub-tree. -/
structure HeartbeatConfig where
  url : Option String := none
deriving DecidableEq, Repr

/-- An installed extension (`SkillConfig`). -/
structure SkillConfig where
  name : String
  source : Option String := none
  verified : Option Bool := none
  permissions : Option (List String) := none
  checksum : Option String := none
  heartbeat : Option HeartbeatConfig := none
deriving DecidableEq, Repr

/-- The parsed configuration object (`OpenClawConfig`). -/
structure OpenClawConfig where
  version : Option String := none
  openclawVersion : Option String := none
  appVersion : Option String := none
  gateway : Option GatewayConfig := none
  controlUI : Option ControlUIConfig := none
  webhooks : Option WebhookConfig := none
  hooks : Option HooksConfig := none
  channels : Option (List (String × ChannelConfig)) := none
  approvals : Option ApprovalsConfig := none
  tools : Option ToolsConfig := none
  shell : Option ShellConfig := none
  browser : Option BrowserConfig := none
  logging : Option LoggingConfig := none
  rateLimit : Option RateLimitConfig := none
  memory : Option MemoryConfig := none
  updates : Option UpdatesConfig := none
  skills : Option (List SkillConfig) := none
deriving DecidableEq, Repr

/-- The well-formed-but-empty configuration `{}`. -/
def emptyConfig : OpenClawConfig := {}

/-! ### JavaScript value helpers -/

/-- JavaScript truthiness of an optional string: `undefined` and `""` are
falsy. -/
def optStrTruthy : Option String → Bool
  | some s => s != ""
  | none => false

/-- JavaScript truthiness of an optional boolean: only `true` is truthy. -/
def optBoolTruthy : Option Bool → Bool
  | some b => b
  | none => false

/-- ASCII lowercasing, the behaviour of `String.prototype.toLowerCase` on the
values the scanners compare (written through the character list so that it
evaluates by reduction). -/
def lowerStr (s : String) : String := String.mk (s.toList.map Char.toLower)

/-- Prefix test, the behaviour of `String.prototype.startsWith` (written
through the character list so that it evaluates by reduction). -/
def strStartsWith (s pre : String) : Bool :=
  s.toList.take pre.toList.length == pre.toList

/-! ### Waiver filter (`src/utils/waivers.ts`) -/

/-- `matchesWaiver` of `src/utils/waivers.ts`: codes must agree and, when the
waiver carries a truthy (non-empty) path, the finding path must equal it. -/
def matchesWaiver (finding : Finding) (waiver : Waiver) : Bool :=
  if finding.code != waiver.code then false
  else if optStrTruthy waiver.path then finding.path == waiver.path
  else true

/-- Result record of `applyWaivers`. -/
structure ApplyWaiversResult where
  findings : List Finding
  waivedCount : Nat
deriving DecidableEq, Repr

/-- Loop body of `applyWaivers`: a matched finding bumps the waived counter,
an unmatched one is appended to the filtered list. -/
def applyWaiversStep (waivers : List Waiver) (acc : List Finding × Nat)
    (finding : Finding) : List Finding × Nat :=
  if waivers.any (fun w => matchesWaiver finding w) then (acc.1, acc.2 + 1)
  else (acc.1 ++ [finding], acc.2)

/-- `applyWaivers` of `src/utils/waivers.ts`. -/
def applyWaivers (findings : List Finding) (waivers : List Waiver) :
    ApplyWaiversResult :=
  if waivers.isEmpty then { findings := findings, waivedCount := 0 }
  else
    let r := findings.foldl (applyWaiversStep waivers) ([], 0)
    { findings := r.1, waivedCount := r.2 }

/-- Parsed waiver store file (`{ waivers?: Waiver[] }`). -/
structure WaiverFile where
  waivers : Option (List Waiver) := none
deriving DecidableEq, Repr

/-- `isExpired` of `src/utils/waivers.ts`; `parseDate` abstracts
`new Date(string).getTime()`, returning `none` for `NaN`. -/
def isExpired (parseDate : String → Option Int) (now : Int) (w : Waiver) :
    Bool :=
  match parseDate w.expiresAt with
  | none => true
  | some t => t < now

/-- `loadWaivers` of `src/utils/waivers.ts`. `storeExists` abstracts
`fileExists` on the waiver path and `parsed` the `readFileSync` + `JSON5.parse`
step (`none` = the call threw). -/
def loadWaivers (storeExists : Bool) (parsed : Option WaiverFile)
    (parseDate : String → Option Int) (now : Int) : List Waiver :=
  if !storeExists then []
  else
    match parsed with
    | none => []
    | some file =>
        (file.waivers.getD []).filter (fun w => !isExpired parseDate now w)

/-! ### Schema resolution (`src/utils/openclaw.ts`) -/

/-- First maximal digit run of a string, the `part.match(/\d+/)` step of
`parseOpenClawVersion`; `none` when the part holds no digit. -/
def firstDigitRun (s : String) : Option Nat :=
  let rest := s.toList.dropWhile (fun c => !c.isDigit)
  match rest.takeWhile Char.isDigit with
  | [] => none
  | ds => some (String.toNat! (String.mk ds))

/-- `trimmed.replace(/^v/i, '')`: drop one leading `v`/`V`. -/
def dropLeadingV (s : String) : String :=
  match s.toList with
  | 'v' :: rest => String.mk rest
  | 'V' :: rest => String.mk rest
  | _ => s

/-- `.replace(/^openclaw@/i, '')`: drop a case-insensitive `openclaw@`
prefix. -/
def dropLeadingTag (s : String) : String :=
  if lowerStr (String.mk (s.toList.take 9)) = "openclaw@" then
    String.mk (s.toList.drop 9)
  else s

/-- `parseOpenClawVersion` of `src/utils/openclaw.ts`. -/
def parseOpenClawVersion (raw : String) : Option OpenClawVersionInfo :=
  let trimmed := raw.trim
  if trimmed = "" then none
  else
    let normalized := dropLeadingTag (dropLeadingV trimmed)
    let parts :=
      (normalized.split (fun c => c = '.' || c = '-' || c = '+')).map
        String.trim
    let numbers := parts.filterMap firstDigitRun
    match numbers with
    | [] => none
    | major :: rest =>
        let format : VersionFormat :=
          if major ≥ 2000 then .date else .semver
        some
          { raw := trimmed
            major := some major
            minor := rest[0]?
            patch := rest[1]?
            format := format }

/-- The "current"-dialect signals of `detectSchemaVersion`: a flat channel
`dmPolicy` string, a nested `gateway.auth` token or mode, a `hooks` block, or
a `gateway.bind` string. -/
def hasCurrentSignals (cfg : OpenClawConfig) : Bool :=
  let channelConfigs := (cfg.channels.getD []).map Prod.snd
  channelConfigs.any (fun ch => ch.dmPolicy.isSome)
    || (cfg.gateway.bind (·.auth) |>.bind (·.token)).isSome
    || (cfg.gateway.bind (·.auth) |>.bind (·.mode)).isSome
    || cfg.hooks.isSome
    || (cfg.gateway.bind (·.bind)).isSome

/-- The "legacy"-dialect signals of `detectSchemaVersion`: a nested channel
`dm.policy` string, a flat `gateway.authToken` string, or a `webhooks`
block. -/
def hasLegacySignals (cfg : OpenClawConfig) : Bool :=
  let channelConfigs := (cfg.channels.getD []).map Prod.snd
  channelConfigs.any (fun ch => (ch.dm.bind (·.policy)).isSome)
    || (cfg.gateway.bind (·.authToken)).isSome
    || cfg.webhooks.isSome

/-- `detectSchemaVersion` of `src/utils/openclaw.ts`. -/
def detectSchemaVersion (cfg : OpenClawConfig)
    (version : Option OpenClawVersionInfo) : SchemaVersion :=
  if hasCurrentSignals cfg then .current
  else if hasLegacySignals cfg then .legacy
  else
    match version with
    | some v =>
        match v.format, v.major with
        | .date, some m => if m ≥ 2026 then .current else .legacy
        | .semver, some m => if m ≥ 2 then .current else .legacy
        | _, _ => .unknown
    | none => .unknown

/-- `detectSchemaVersion` as claimed: the same dialect signals, then, when a
detected version exists, `current` for a date version with major ≥ 2026 or a
semver version with major ≥ 2 and `legacy` otherwise, else `unknown`. -/
def detectSchemaVersionSpec (cfg : OpenClawConfig)
    (version : Option OpenClawVersionInfo) : SchemaVersion :=
  if hasCurrentSignals cfg then .current
  else if hasLegacySignals cfg then .legacy
  else
    match version with
    | some v =>
        if (v.format = .date ∧ v.major.getD 0 ≥ 2026)
            ∨ (v.format = .semver ∧ v.major.getD 0 ≥ 2) then .current
        else .legacy
    | none => .unknown

/-- `resolveGatewayAuthToken` of `src/utils/openclaw.ts`. -/
def resolveGatewayAuthToken (cfg : OpenClawConfig) (schema : SchemaVersion) :
    Option String :=
  let nested := cfg.gateway.bind (·.auth) |>.bind (·.token)
  let flat := cfg.gateway.bind (·.authToken)
  match schema with
  | .current => nested <|> flat
  | .legacy => flat <|> nested
  | .unknown => nested <|> flat

/-- Result of `resolveWebhookConfig`. -/
structure WebhookResolution where
  enabled : Bool
  hasAuth : Bool
  path : String
deriving DecidableEq, Repr

/-- `typeof token === 'string' && token.length > 0`. -/
def hookTokenSet : Option String → Bool
  | some t => t.length > 0
  | none => false

/-- Resolution derived from a legacy `webhooks` block. -/
def webhookResolutionOfLegacy (w : WebhookConfig) : WebhookResolution :=
  { enabled := w.enabled == some true
    hasAuth := w.requireAuth == some true
    path := "webhooks.requireAuth" }

/-- Resolution derived from a current `hooks` block. -/
def webhookResolutionOfHooks (h : HooksConfig) : WebhookResolution :=
  { enabled := h.enabled == some true
    hasAuth := hookTokenSet h.token
    path := "hooks.token" }

/-- `resolveWebhookConfig` of `src/utils/openclaw.ts`. -/
def resolveWebhookConfig (cfg : OpenClawConfig) (schema : SchemaVersion) :
    Option WebhookResolution :=
  match schema with
  | .legacy => cfg.webhooks.map webhookResolutionOfLegacy
  | .current => cfg.hooks.map webhookResolutionOfHooks
  | .unknown =>
      match cfg.hooks with
      | some h => some (webhookResolutionOfHooks h)
      | none => cfg.webhooks.map webhookResolutionOfLegacy

/-- `resolveDmPolicy` of `src/utils/openclaw.ts`. -/
def resolveDmPolicy (channel : ChannelConfig) (schema : SchemaVersion) :
    Option String :=
  match schema with
  | .current => channel.dmPolicy <|> (channel.dm.bind (·.policy))
  | .legacy => (channel.dm.bind (·.policy)) <|> channel.dmPolicy
  | .unknown => channel.dmPolicy <|> (channel.dm.bind (·.policy))

/-! ### External probe environment

The scanners call out to the filesystem, a process spawner, the JSON5 parser
and the regex engine (`src/utils/config.ts`, `node:fs`, `node:child_process`).
These collaborators are bundled into one read-only environment record. -/

/-- Parsed `defaults`/per-agent entry of the exec-approvals file. -/
structure ApprovalsEntry where
  security : Option String := none
  ask : Option String := none
  askFallback : Option String := none
  safeBins : Option (List String) := none
deriving DecidableEq, Repr

/-- Parsed exec-approvals file (`ExecApprovalsFile` of
`src/scanner/approvals.ts`). -/
structure ExecApprovalsFile where
  defaults : Option ApprovalsEntry := none
  agents : Option (List (String × ApprovalsEntry)) := none
deriving DecidableEq, Repr

/-- Read-only environment of external probes. `fileExists` and `filePerms`
mirror `fileExists`/`getFilePermissions` of `src/utils/config.ts` (`none` =
the `statSync` call threw); `readConfigText` is `readFileSync` on the config
file (`none` = it threw); `regexTest` is `pattern.test(text)` of the host
regex engine; `readApprovals` is `readFileSync` + `JSON5.parse` on the
exec-approvals file (`none` = either threw); `pathExists` is `existsSync`;
`probeOk` is the bounded `spawnSync(command, ['--version'])` probe succeeding
with exit status 0; `configPath`/`stateDir` are the global `getConfigPath()` /
`getStateDirPath()` results. -/
structure FS where
  fileExists : String → Bool
  filePerms : String → Option String
  readConfigText : String → Option String
  regexTest : String → String → Bool
  readApprovals : String → Option ExecApprovalsFile
  pathExists : String → Bool
  probeOk : String → Bool
  configPath : String
  stateDir : String

/-- An environment on which every probe reports absence or failure. -/
def emptyFS : FS :=
  { fileExists := fun _ => false
    filePerms := fun _ => none
    readConfigText := fun _ => none
    regexTest := fun _ _ => false
    readApprovals := fun _ => none
    pathExists := fun _ => false
    probeOk := fun _ => false
    configPath := "/home/user/.openclaw/openclaw.json"
    stateDir := "/home/user/.openclaw" }

/-! ### Network scanner (`src/scanner/network.ts`) -/

/-- Bind values treated as exposing the gateway (`exposedBindValues`). -/
def exposedBindValues : List String :=
  ["lan", "tailnet", "public", "0.0.0.0", "::", "all"]

/-- The lowercased `gateway.bind` value (`config.gateway?.bind?.toLowerCase()`). -/
def gatewayBindLower (cfg : OpenClawConfig) : Option String :=
  (cfg.gateway.bind (·.bind)).map lowerStr

/-- The exposure test of `scanNetwork`: a truthy (present, non-empty) bind is
checked against `exposedBindValues`; only an absent or empty bind falls back
to the host being `0.0.0.0` or `::`. -/
def gatewayExposed (cfg : OpenClawConfig) : Bool :=
  let host := cfg.gateway.bind (·.host)
  let bind := gatewayBindLower cfg
  if optStrTruthy bind then exposedBindValues.contains (bind.getD "")
  else host == some "0.0.0.0" || host == some "::"

/-- `scanNetwork` of `src/scanner/network.ts`. -/
def scanNetwork (cfg : OpenClawConfig) (ctx : ScanContext) : List Finding :=
  let host := cfg.gateway.bind (·.host)
  let bind := gatewayBindLower cfg
  let port : Nat :=
    match cfg.gateway.bind (·.port) with
    | some p => if p = 0 then 18789 else p
    | none => 18789
  let authToken := resolveGatewayAuthToken cfg ctx.openClaw.schema
  let authPath :=
    match ctx.openClaw.schema with
    | .legacy => "gateway.authToken"
    | .current => "gateway.auth.token"
    | .unknown =>
        if optStrTruthy (cfg.gateway.bind (·.authToken)) then
          "gateway.authToken"
        else "gateway.auth.token"
  let exposed := gatewayExposed cfg
  let bindingPath := if optStrTruthy bind then "gateway.bind" else "gateway.host"
  let shown := bind.getD (host.getD "public")
  let gatewayPart : List Finding :=
    if exposed then
      if !optStrTruthy authToken then
        [{ code := "NET001"
           severity := .critical
           title := s!"Gateway exposed on {shown}:{port} without auth"
           detail := "The gateway is bound to all interfaces and has no authentication configured."
           recommendation := s!"Set {bindingPath} to loopback (or 127.0.0.1) or configure {authPath}"
           fixable := true
           path := some bindingPath }]
      else
        [{ code := "NET002"
           severity := .medium
           title := s!"Gateway exposed on {shown}:{port}"
           detail := "The gateway is bound to all interfaces. Auth is configured but exposure increases attack surface."
           recommendation := "Consider binding to loopback (127.0.0.1) if remote access is not needed"
           fixable := true
           path := some bindingPath }]
    else []
  let controlUIPart : List Finding :=
    if optBoolTruthy (cfg.controlUI.bind (·.enabled))
        && optBoolTruthy (cfg.controlUI.bind (·.dangerousDeviceAuthBypass)) then
      [{ code := "NET003"
         severity := .high
         title := "Control UI auth bypass enabled"
         detail := "dangerousDeviceAuthBypass allows unauthenticated access to the control panel."
         recommendation := "Set controlUI.dangerousDeviceAuthBypass to false"
         fixable := true
         path := some "controlUI.dangerousDeviceAuthBypass" }]
    else []
  let webhookPart : List Finding :=
    match resolveWebhookConfig cfg ctx.openClaw.schema with
    | some w =>
        if w.enabled && !w.hasAuth then
          let wpath := w.path
          [{ code := "NET004"
             severity := .high
             title := "Webhooks enabled without authentication"
             detail := "Incoming hooks are enabled without authentication, allowing injection of commands."
             recommendation :=
               if w.path = "hooks.token" then
                 "Set hooks.token or disable hooks.enabled"
               else s!"Set {wpath} to true"
             fixable := w.path != "hooks.token"
             path := some w.path }]
        else []
    | none => []
  gatewayPart ++ controlUIPart ++ webhookPart

/-! ### Credentials scanner (`src/scanner/credentials.ts`) -/

/-- `API_KEY_PATTERNS` (name, regex source); the regex engine itself is the
`regexTest` collaborator of `FS`. -/
def API_KEY_PATTERNS : List (String × String) :=
  [("OpenAI", "sk-[a-zA-Z0-9]\x7b48\x7d"),
   ("Anthropic", "sk-ant-[a-zA-Z0-9-]\x7b95\x7d"),
   ("GitHub", "gh[ps]_[a-zA-Z0-9]\x7b36\x7d"),
   ("Slack", "xox[baprs]-[a-zA-Z0-9-]+")]

/-- CRED002 finding for one matched pattern name. -/
def cred002Finding (name : String) : Finding :=
  { code := "CRED002"
    severity := .high
    title := s!"{name} API key found in config"
    detail := s!"Plaintext {name} API key detected in openclaw.json."
    recommendation := "Use environment variables or a secrets manager instead"
    fixable := false }

/-- `scanCredentials` of `src/scanner/credentials.ts`; it reads the global
config/state paths, not the scan context. -/
def scanCredentials (fs : FS) : List Finding :=
  let configPath := fs.configPath
  let stateDir := fs.stateDir
  let cred001Part : List Finding :=
    match fs.filePerms configPath with
    | some p =>
        if p != "" && p != "600" then
          [{ code := "CRED001"
             severity := .high
             title := "Config file has weak permissions"
             detail := s!"{configPath} has permissions {p}, should be 600."
             recommendation := s!"Run: chmod 600 {configPath}"
             fixable := true }]
        else []
    | none => []
  let cred002Part : List Finding :=
    if fs.fileExists configPath then
      match fs.readConfigText configPath with
      | some content =>
          API_KEY_PATTERNS.filterMap fun pat =>
            if fs.regexTest pat.2 content then some (cred002Finding pat.1)
            else none
      | none => []
    else []
  let envPath := stateDir ++ "/.env"
  let cred003Part : List Finding :=
    if fs.fileExists envPath then
      match fs.filePerms envPath with
      | some p =>
          if p != "" && p != "600" then
            [{ code := "CRED003"
               severity := .high
               title := ".env file has weak permissions"
               detail := s!"{envPath} has permissions {p}, should be 600."
               recommendation := s!"Run: chmod 600 {envPath}"
               fixable := true }]
          else []
      | none => []
    else []
  let cred004Part : List Finding :=
    match fs.filePerms stateDir with
    | some p =>
        if p != "" && !strStartsWith p "7" then
          match (p.toList.drop 2).head? with
          | some c =>
              if c.isDigit && c.toNat - 48 > 0 then
                [{ code := "CRED004"
                   severity := .medium
                   title := "State directory accessible by others"
                   detail := s!"{stateDir} allows access to other users."
                   recommendation := s!"Run: chmod 700 {stateDir}"
                   fixable := true }]
              else []
          | none => []
        else []
    | none => []
  cred001Part ++ cred002Part ++ cred003Part ++ cred004Part

/-! ### Access scanner (`src/scanner/access.ts`) -/

/-- Findings contributed by one channel of `scanAccess`. -/
def accessChannelFindings (ctx : ScanContext) (channelName : String)
    (channelConfig : ChannelConfig) : List Finding :=
  let dmPolicy := resolveDmPolicy channelConfig ctx.openClaw.schema
  let dmPolicyPath :=
    match ctx.openClaw.schema with
    | .legacy => s!"channels.{channelName}.dm.policy"
    | .current => s!"channels.{channelName}.dmPolicy"
    | .unknown =>
        if (channelConfig.dm.bind (·.policy)).isSome then
          s!"channels.{channelName}.dm.policy"
        else s!"channels.{channelName}.dmPolicy"
  let dmPart : List Finding :=
    if dmPolicy == some "open" then
      [{ code := "ACCESS001"
         severity := .high
         title := s!"{channelName}: DM policy allows unknown senders"
         detail := s!"Channel {channelName} has a DM policy set to \"open\", allowing anyone to send commands."
         recommendation := s!"Set {dmPolicyPath} to \"pairing\" or \"allowlist\""
         fixable := true
         path := some dmPolicyPath }]
    else []
  let allowFromPart : List Finding :=
    if (channelConfig.allowFrom.getD []).isEmpty then
      if dmPolicy != some "allowlist" then
        [{ code := "ACCESS002"
           severity := .medium
           title := s!"{channelName}: No allowFrom restrictions"
           detail := s!"Channel {channelName} has no allowFrom list configured."
           recommendation := s!"Configure channels.{channelName}.allowFrom with trusted identifiers"
           fixable := false
           path := some s!"channels.{channelName}.allowFrom" }]
      else []
    else []
  let groupPart : List Finding :=
    match channelConfig.groups with
    | some gs =>
        gs.filterMap fun g =>
          if optBoolTruthy g.2.requireMention then none
          else
            let groupName := g.1
            some
              { code := "ACCESS003"
                severity := .medium
                title := s!"{channelName}/{groupName}: Mention not required"
                detail := s!"Group {groupName} in {channelName} does not require @mention, bot responds to all messages."
                recommendation := s!"Set channels.{channelName}.groups.{groupName}.requireMention to true"
                fixable := true
                path := some s!"channels.{channelName}.groups.{groupName}.requireMention" }
    | none => []
  dmPart ++ allowFromPart ++ groupPart

/-- `scanAccess` of `src/scanner/access.ts`. -/
def scanAccess (cfg : OpenClawConfig) (ctx : ScanContext) : List Finding :=
  match cfg.channels with
  | none => []
  | some channels =>
      channels.foldl
        (fun acc ch => acc ++ accessChannelFindings ctx ch.1 ch.2) []

/-! ### Skills scanner (`src/scanner/skills.ts`) -/

/-- `DANGEROUS_PERMISSIONS`. -/
def DANGEROUS_PERMISSIONS : List String :=
  ["filesystem:write", "filesystem:delete", "shell:execute",
   "network:unrestricted", "credentials:read"]

/-- `KNOWN_MALICIOUS_SKILLS`. -/
def KNOWN_MALICIOUS_SKILLS : List String :=
  ["crypto-miner-helper", "free-tokens-generator"]

/-- `RISKY_SKILLS`. -/
def RISKY_SKILLS : List String := ["moltbook-skill"]

/-- SKILL001 finding for a skill on the malicious list. -/
def skill001Finding (skill : SkillConfig) : Finding :=
  let name := skill.name
  { code := "SKILL001"
    severity := .critical
    title := s!"Malicious skill detected: {name}"
    detail := s!"The skill \"{name}\" is on the known malicious skills list."
    recommendation := "Remove this skill immediately"
    fixable := false
    path := some "skills" }

/-- SKILL002 finding for a skill on the risky list. -/
def skill002Finding (skill : SkillConfig) : Finding :=
  let name := skill.name
  { code := "SKILL002"
    severity := .high
    title := s!"Risky skill installed: {name}"
    detail := s!"The skill \"{name}\" fetches external instructions periodically, which could be used for injection."
    recommendation := "Review this skill carefully or remove it"
    fixable := false
    path := some "skills" }

/-- SKILL005 finding for a non-official skill without checksum. -/
def skill005Finding (skill : SkillConfig) : Finding :=
  let name := skill.name
  { code := "SKILL005"
    severity := .low
    title := s!"Skill \"{name}\" has no checksum"
    detail := "Cannot verify skill integrity without checksum."
    recommendation := "Add checksum verification for this skill"
    fixable := false
    path := some "skills" }

/-- `skill.source && !skill.source.startsWith('official:')`. -/
def skillNonOfficial (skill : SkillConfig) : Bool :=
  match skill.source with
  | some s => s != "" && !strStartsWith s "official:"
  | none => false

/-- `skill.heartbeat?.url` truthiness. -/
def skillHeartbeatUrl (skill : SkillConfig) : Bool :=
  optStrTruthy (skill.heartbeat.bind (·.url))

/-- `JavaScript Map.set` on an association list kept in insertion order. -/
def jsMapSet (m : List (String × List String)) (k : String)
    (v : List String) : List (String × List String) :=
  if m.any (fun kv => kv.1 = k) then
    m.map (fun kv => if kv.1 = k then (k, v) else kv)
  else m ++ [(k, v)]

/-- Loop-carried state of the `scanSkills` per-skill pass. -/
structure SkillAcc where
  findings : List Finding := []
  unverifiedSkills : List String := []
  dangerousSkills : List (String × List String) := []
  externalFetchSkills : List String := []
deriving DecidableEq, Repr

/-- Risky-list check of the `scanSkills` loop (SKILL002). -/
def skillRiskyCheck (acc : SkillAcc) (skill : SkillConfig) : SkillAcc :=
  if RISKY_SKILLS.contains skill.name then
    { acc with findings := acc.findings ++ [skill002Finding skill] }
  else acc

/-- Verification-status check of the `scanSkills` loop (feeds SKILL003). -/
def skillUnverifiedCheck (acc : SkillAcc) (skill : SkillConfig) : SkillAcc :=
  if !optBoolTruthy skill.verified && skillNonOfficial skill then
    { acc with unverifiedSkills := acc.unverifiedSkills ++ [skill.name] }
  else acc

/-- Dangerous-permission check of the `scanSkills` loop (feeds SKILL004). -/
def skillPermissionsCheck (acc : SkillAcc) (skill : SkillConfig) : SkillAcc :=
  match skill.permissions with
  | some ps =>
      let dangerous := ps.filter (fun p => DANGEROUS_PERMISSIONS.contains p)
      if !dangerous.isEmpty then
        { acc with
            dangerousSkills := jsMapSet acc.dangerousSkills skill.name dangerous }
      else acc
  | none => acc

/-- Heartbeat-URL check of the `scanSkills` loop (feeds SKILL006). -/
def skillHeartbeatCheck (acc : SkillAcc) (skill : SkillConfig) : SkillAcc :=
  if skillHeartbeatUrl skill then
    { acc with externalFetchSkills := acc.externalFetchSkills ++ [skill.name] }
  else acc

/-- Checksum check of the `scanSkills` loop (SKILL005). -/
def skillChecksumCheck (acc : SkillAcc) (skill : SkillConfig) : SkillAcc :=
  if !optStrTruthy skill.checksum && skillNonOfficial skill then
    { acc with findings := acc.findings ++ [skill005Finding skill] }
  else acc

/-- One iteration of the `scanSkills` loop: a skill on the malicious list
contributes only its SKILL001 finding and `continue`s past every other
check; otherwise the risky, verification, permission, heartbeat and checksum
checks run in source order. -/
def processSkill (acc : SkillAcc) (skill : SkillConfig) : SkillAcc :=
  if KNOWN_MALICIOUS_SKILLS.contains skill.name then
    { acc with findings := acc.findings ++ [skill001Finding skill] }
  else
    skillChecksumCheck
      (skillHeartbeatCheck
        (skillPermissionsCheck
          (skillUnverifiedCheck (skillRiskyCheck acc skill) skill) skill) skill)
      skill

/-- Aggregated findings emitted after the `scanSkills` loop (SKILL003,
SKILL004 per dangerous entry, SKILL006). -/
def skillAggregateFindings (acc : SkillAcc) : List Finding :=
  let skill003Part : List Finding :=
    if !acc.unverifiedSkills.isEmpty then
      let n := acc.unverifiedSkills.length
      let names := String.intercalate ", " acc.unverifiedSkills
      [{ code := "SKILL003"
         severity := .medium
         title := s!"{n} skills installed from community sources"
         detail := s!"Unverified skills: {names}"
         recommendation := "Review: " ++ names
         fixable := false
         path := some "skills" }]
    else []
  let skill004Part : List Finding :=
    acc.dangerousSkills.map fun kv =>
      let skillName := kv.1
      let permissions := String.intercalate ", " kv.2
      { code := "SKILL004"
        severity := .high
        title := s!"Skill \"{skillName}\" has dangerous permissions"
        detail := s!"Permissions: {permissions}"
        recommendation := "Review if these permissions are necessary"
        fixable := false
        path := some "skills" }
  let skill006Part : List Finding :=
    if !acc.externalFetchSkills.isEmpty then
      let names := String.intercalate ", " acc.externalFetchSkills
      [{ code := "SKILL006"
         severity := .medium
         title := "Skills fetch external URLs via heartbeat"
         detail := s!"Skills with external heartbeat: {names}"
         recommendation := "Review heartbeat URLs for safety"
         fixable := false
         path := some "skills" }]
    else []
  skill003Part ++ skill004Part ++ skill006Part

/-- `scanSkills` of `src/scanner/skills.ts`. -/
def scanSkills (cfg : OpenClawConfig) : List Finding :=
  match cfg.skills with
  | none => []
  | some skills =>
      if skills.isEmpty then []
      else
        let acc := skills.foldl processSkill {}
        acc.findings ++ skillAggregateFindings acc

/-! ### Runtime scanner (`src/scanner/runtime.ts`) -/

/-- `scanRuntime` of `src/scanner/runtime.ts`. -/
def scanRuntime (fs : FS) (cfg : OpenClawConfig) : List Finding :=
  let run001Part : List Finding :=
    let logLevel := cfg.logging.bind (·.level)
    if logLevel == some "debug" || logLevel == some "trace" then
      let lvl := (logLevel.getD "")
      [{ code := "RUN001"
         severity := .low
         title := "Verbose logging may expose message content"
         detail := s!"Logging level is set to \"{lvl}\", which may log sensitive data."
         recommendation := "Set logging.level to \"info\" in production"
         fixable := true
         path := some "logging.level" }]
    else []
  let run002Part : List Finding :=
    match cfg.logging.bind (·.file) with
    | some logFile =>
        if logFile != "" then
          match fs.filePerms logFile with
          | some p =>
              if p != "" && p != "600" && p != "640" then
                [{ code := "RUN002"
                   severity := .medium
                   title := "Log file has weak permissions"
                   detail := s!"Log file {logFile} has permissions {p}."
                   recommendation := "Run: chmod 600 " ++ logFile
                   fixable := true
                   path := some "logging.file" }]
              else []
          | none => []
        else []
    | none => []
  let run003Part : List Finding :=
    match cfg.rateLimit with
    | some rl =>
        if !optBoolTruthy rl.enabled then
          [{ code := "RUN003"
             severity := .medium
             title := "Rate limiting disabled"
             detail := "No rate limiting allows resource exhaustion and abuse."
             recommendation := "Set rateLimit.enabled to true"
             fixable := true
             path := some "rateLimit.enabled" }]
        else []
    | none => []
  let run004Part : List Finding :=
    if optBoolTruthy (cfg.browser.bind (·.enabled))
        && !optBoolTruthy (cfg.browser.bind (·.sandbox)) then
      [{ code := "RUN004"
         severity := .high
         title := "Browser sandbox disabled"
         detail := "Browser runs without sandboxing, increasing risk of escape."
         recommendation := "Set browser.sandbox to true"
         fixable := true
         path := some "browser.sandbox" }]
    else []
  let run005Part : List Finding :=
    if optBoolTruthy (cfg.browser.bind (·.enabled))
        && (cfg.browser.bind (·.headless)) == some false then
      [{ code := "RUN005"
         severity := .low
         title := "Browser running in headed mode"
         detail := "Headed browser mode is typically only needed for debugging."
         recommendation := "Set browser.headless to true in production"
         fixable := true
         path := some "browser.headless" }]
    else []
  let shellPart : List Finding :=
    if optBoolTruthy (cfg.shell.bind (·.enabled)) then
      let allowedCommands := cfg.shell.bind (·.allowedCommands)
      if (allowedCommands.getD []).isEmpty then
        [{ code := "RUN006"
           severity := .critical
           title := "Shell execution enabled without restrictions"
           detail := "Shell access is enabled with no command allowlist."
           recommendation := "Configure shell.allowedCommands or disable shell.enabled"
           fixable := true
           path := some "shell.allowedCommands" }]
      else
        let cmds := allowedCommands.getD []
        let n := cmds.length
        let joined := String.intercalate ", " cmds
        [{ code := "RUN007"
           severity := .medium
           title := "Shell execution enabled"
           detail := s!"Shell is enabled with {n} allowed commands."
           recommendation := "Review allowed commands: " ++ joined
           fixable := false
           path := some "shell.allowedCommands" }]
    else []
  let run008Part : List Finding :=
    if optBoolTruthy (cfg.memory.bind (·.persistent))
        && !optBoolTruthy (cfg.memory.bind (·.encrypted)) then
      [{ code := "RUN008"
         severity := .medium
         title := "Persistent memory not encrypted"
         detail := "Memory is persisted without encryption."
         recommendation := "Set memory.encrypted to true"
         fixable := true
         path := some "memory.encrypted" }]
    else []
  let run009Part : List Finding :=
    if optBoolTruthy (cfg.updates.bind (·.autoInstall)) then
      [{ code := "RUN009"
         severity := .low
         title := "Auto-update enabled"
         detail := "Automatic updates may introduce untested changes."
         recommendation := "Consider manual updates for production deployments"
         fixable := false
         path := some "updates.autoInstall" }]
    else []
  run001Part ++ run002Part ++ run003Part ++ run004Part ++ run005Part
    ++ shellPart ++ run008Part ++ run009Part

/-! ### Approvals scanner (`src/scanner/approvals.ts`) -/

/-- `SECURITY_FULL`. -/
def SECURITY_FULL : List String := ["full"]

/-- `value && SECURITY_FULL.has(value)` (an absent value is falsy; the empty
string is both falsy and outside the set). -/
def securityIsFull (v : Option String) : Bool :=
  match v with
  | some s => s != "" && SECURITY_FULL.contains s
  | none => false

/-- `isExecAllowed` of `src/scanner/approvals.ts`. -/
def isExecAllowed (cfg : OpenClawConfig) : Bool :=
  let deny := (cfg.tools.bind (·.deny)).getD []
  if deny.contains "exec" || deny.contains "all" || deny.contains "*" then
    false
  else
    let execSecurity := cfg.tools.bind (·.exec) |>.bind (·.security)
    if execSecurity == some "deny" then false
    else if execSecurity == some "allowlist" || execSecurity == some "full" then
      true
    else
      let allow := (cfg.tools.bind (·.allow)).getD []
      if allow.contains "exec" then true
      else if optBoolTruthy (cfg.shell.bind (·.enabled)) then true
      else false

/-- APPROVALS006 check run after the approvals-file block. -/
def approvals006Part (cfg : OpenClawConfig) : List Finding :=
  match cfg.approvals.bind (·.exec) with
  | some execApproval =>
      if optBoolTruthy execApproval.enabled then
        let mode := execApproval.mode.getD "session"
        if (mode == "targets" || mode == "both")
            && (execApproval.targets.getD []).isEmpty then
          [{ code := "APPROVALS006"
             severity := .low
             title := "Exec approvals enabled without targets"
             detail := "Exec approvals are enabled in targets mode but no targets are configured."
             recommendation := "Set approvals.exec.targets or switch mode to \"session\""
             fixable := false
             path := some "approvals.exec.targets" }]
        else []
      else []
  | none => []

/-- `scanApprovals` of `src/scanner/approvals.ts`. -/
def scanApprovals (fs : FS) (cfg : OpenClawConfig) (ctx : ScanContext) :
    List Finding :=
  let hasSignals :=
    ctx.openClaw.schema == .current
      || (cfg.approvals.bind (·.exec)).isSome
      || (cfg.tools.bind (·.exec)).isSome
      || optBoolTruthy (cfg.shell.bind (·.enabled))
  if !hasSignals then []
  else
    let approvalsPath := ctx.paths.stateDir ++ "/exec-approvals.json"
    let execAllowed := isExecAllowed cfg
    if execAllowed && !fs.fileExists approvalsPath then
      [{ code := "APPROVALS001"
         severity := .high
         title := "Exec approvals file missing"
         detail := "Exec tool appears enabled but no approvals file was found."
         recommendation := s!"Create {approvalsPath} or set tools.exec.security to \"deny\""
         fixable := false
         path := some approvalsPath }]
    else if !fs.fileExists approvalsPath then []
    else
      let filePart : List Finding :=
        match fs.readApprovals approvalsPath with
        | some approvals =>
            let defaults := approvals.defaults.getD {}
            let securityPart : List Finding :=
              if securityIsFull defaults.security then
                [{ code := "APPROVALS002"
                   severity := .high
                   title := "Exec approvals allow unrestricted execution"
                   detail := "Default exec approvals security is set to \"full\"."
                   recommendation := "Set defaults.security to \"allowlist\" or \"deny\""
                   fixable := false
                   path := some s!"{approvalsPath}:defaults.security" }]
              else []
            let fallbackPart : List Finding :=
              if securityIsFull defaults.askFallback then
                [{ code := "APPROVALS003"
                   severity := .medium
                   title := "Exec approvals fallback is unrestricted"
                   detail := "Default exec approvals askFallback is set to \"full\"."
                   recommendation := "Set defaults.askFallback to \"deny\" or \"allowlist\""
                   fixable := false
                   path := some s!"{approvalsPath}:defaults.askFallback" }]
              else []
            let agentsPart : List Finding :=
              match approvals.agents with
              | some agents =>
                  agents.filterMap fun entry =>
                    if securityIsFull entry.2.security then
                      let agent := entry.1
                      some
                        { code := "APPROVALS004"
                          severity := .medium
                          title := s!"Agent {agent} has unrestricted exec approvals"
                          detail := s!"Exec approvals for agent \"{agent}\" are set to \"full\"."
                          recommendation := "Set agent security to \"allowlist\" or \"deny\""
                          fixable := false
                          path := some s!"{approvalsPath}:agents.{agent}.security" }
                    else none
              | none => []
            securityPart ++ fallbackPart ++ agentsPart
        | none =>
            [{ code := "APPROVALS005"
               severity := .medium
               title := "Exec approvals file could not be parsed"
               detail := "Rubberband could not parse exec-approvals.json."
               recommendation := s!"Validate {approvalsPath} for JSON5 syntax errors"
               fixable := false
               path := some approvalsPath }]
      filePart ++ approvals006Part cfg

/-! ### Web-tools scanner (`src/scanner/web.ts`) -/

/-- `DEFAULT_MAX_REDIRECTS`. -/
def DEFAULT_MAX_REDIRECTS : Int := 3

/-- `scanWebTools` of `src/scanner/web.ts`. -/
def scanWebTools (cfg : OpenClawConfig) (_ctx : ScanContext) : List Finding :=
  match cfg.tools.bind (·.web) |>.bind (·.fetch) with
  | none => []
  | some fetchConfig =>
      if fetchConfig.enabled == some false then []
      else
        match fetchConfig.maxRedirects with
        | some maxRedirects =>
            if maxRedirects > DEFAULT_MAX_REDIRECTS then
              [{ code := "WEB001"
                 severity := .medium
                 title := "web_fetch allows long redirect chains"
                 detail := s!"tools.web.fetch.maxRedirects is set to {maxRedirects}, increasing redirect-based SSRF surface."
                 recommendation := s!"Keep tools.web.fetch.maxRedirects at {DEFAULT_MAX_REDIRECTS} or lower"
                 fixable := false
                 path := some "tools.web.fetch.maxRedirects" }]
            else []
        | none => []

/-! ### Memory-backend scanner (`src/scanner/memory.ts`) -/

/-- `commandExists` of `src/scanner/memory.ts`: a path-like command is probed
with `existsSync`, a bare name with the bounded `--version` spawn. -/
def commandExists (fs : FS) (command : String) : Bool :=
  if command = "" then false
  else if command.contains '/' || command.contains '\\' then
    fs.pathExists command
  else fs.probeOk command

/-- `scanMemoryBackend` of `src/scanner/memory.ts`. -/
def scanMemoryBackend (fs : FS) (cfg : OpenClawConfig) (_ctx : ScanContext) :
    List Finding :=
  match cfg.memory.bind (·.backend) with
  | none => []
  | some backend =>
      if backend = "" || lowerStr backend != "qmd" then []
      else
        let command :=
          match cfg.memory.bind (·.qmd) |>.bind (·.command) with
          | some c => if c = "" then "qmd" else c
          | none => "qmd"
        if !commandExists fs command then
          [{ code := "MEM001"
             severity := .medium
             title := "QMD memory backend not available"
             detail := s!"memory.backend is set to \"qmd\" but \"{command}\" was not found."
             recommendation := "Install qmd or set memory.qmd.command to the correct path"
             fixable := false
             path := some "memory.qmd.command" }]
        else []

/-! ### Scan orchestrator (`src/scanner/index.ts`, waiver-aware version) -/

/-- `SEVERITY_WEIGHTS`. -/
def severityWeight : Severity → Int
  | .critical => 25
  | .high => 15
  | .medium => 8
  | .low => 3

/-- `ScanResult` of `src/utils/types.ts`, restricted to the fields `runScan`
produces. -/
structure ScanResult where
  findings : List Finding
  score : Int
  openClaw : OpenClawInfo
  waivedCount : Nat
deriving DecidableEq, Repr

/-- The concatenated evaluator output of `runScan`, in source order. -/
def collectFindings (fs : FS) (cfg : OpenClawConfig) (ctx : ScanContext) :
    List Finding :=
  scanNetwork cfg ctx ++ scanCredentials fs ++ scanAccess cfg ctx
    ++ scanSkills cfg ++ scanRuntime fs cfg ++ scanApprovals fs cfg ctx
    ++ scanWebTools cfg ctx ++ scanMemoryBackend fs cfg ctx

/-- `runScan` of the waiver-aware `src/scanner/index.ts`: run every scanner,
apply the waiver filter with the context's active waivers, then start the
score at 100, subtract each surviving finding's severity weight and floor at
0. (The `context ?? buildScanContext(...)` defaulting is elided: the context
is passed explicitly.) -/
def runScan (fs : FS) (cfg : OpenClawConfig) (ctx : ScanContext) : ScanResult :=
  let findings := collectFindings fs cfg ctx
  let filtered := applyWaivers findings (ctx.waivers.getD [])
  let score :=
    filtered.findings.foldl (fun s f => s - severityWeight f.severity) 100
  { findings := filtered.findings
    score := max 0 score
    openClaw := ctx.openClaw
    waivedCount := filtered.waivedCount }

/-- Total severity weight of a finding list. -/
def sumWeights (findings : List Finding) : Int :=
  (findings.map (fun f => severityWeight f.severity)).sum

/-- `countBySeverity` output record. -/
structure SeverityCounts where
  critical : Nat := 0
  high : Nat := 0
  medium : Nat := 0
  low : Nat := 0
deriving DecidableEq, Repr

/-- `countBySeverity` of `src/scanner/index.ts`. -/
def countBySeverity (findings : List Finding) : SeverityCounts :=
  findings.foldl
    (fun counts f =>
      match f.severity with
      | .critical => { counts with critical := counts.critical + 1 }
      | .high => { counts with high := counts.high + 1 }
      | .medium => { counts with medium := counts.medium + 1 }
      | .low => { counts with low := counts.low + 1 })
    {}

/-! ### Hardeners (`harden.ts`, context-aware version)

Hardener functions mutate the configuration in place and report whether the
fix applied; here each becomes a pure map from the configuration to the
updated configuration plus that flag. Filesystem-mutation hardeners only
`chmod` paths — they never touch the configuration object, so their embedding
returns it unchanged (the chmod itself is an external effect outside the
core). -/

/-- `dryRun`/`strict` flags (`HardenOptions`). -/
structure HardenOptions where
  dryRun : Bool := false
  strict : Bool := false
deriving DecidableEq, Repr

/-- `'config' | 'filesystem'` hardener tag. -/
inductive HardenerType where
  | config
  | filesystem
deriving DecidableEq, Repr

/-- A hardener action: probes, configuration, options and context to the
updated configuration and the source function's boolean result. -/
def HardenFn : Type :=
  FS → OpenClawConfig → HardenOptions → ScanContext → OpenClawConfig × Bool

/-- `setDmPolicy` of `harden.ts`: write the DM policy through the
schema-appropriate field, preferring the already-populated one when the
schema is unknown. -/
def setDmPolicy (channel : ChannelConfig) (ctx : ScanContext) (value : String) :
    ChannelConfig :=
  match ctx.openClaw.schema with
  | .legacy => { channel with dm := some { policy := some value } }
  | .current => { channel with dmPolicy := some value }
  | .unknown =>
      if (channel.dm.bind (·.policy)).isSome then
        { channel with dm := some { policy := some value } }
      else { channel with dmPolicy := some value }

/-- NET001 hardener: bind the gateway to localhost; also set `bind` to
`loopback` on the current schema or when a truthy `bind` is present. -/
def hardenNET001fn : HardenFn := fun _fs cfg _opts ctx =>
  let g := cfg.gateway.getD {}
  let g := { g with host := some "127.0.0.1" }
  let g :=
    if ctx.openClaw.schema == .current || optStrTruthy g.bind then
      { g with bind := some "loopback" }
    else g
  ({ cfg with gateway := some g }, true)

/-- NET003 hardener: disable the control-UI auth bypass. -/
def hardenNET003fn : HardenFn := fun _fs cfg _opts _ctx =>
  let c := cfg.controlUI.getD {}
  ({ cfg with controlUI := some { c with dangerousDeviceAuthBypass := some false } },
    true)

/-- NET004 hardener: enable legacy webhook auth; not applicable on the
current schema. -/
def hardenNET004fn : HardenFn := fun _fs cfg _opts ctx =>
  if ctx.openClaw.schema == .current then (cfg, false)
  else
    let w := cfg.webhooks.getD {}
    ({ cfg with webhooks := some { w with requireAuth := some true } }, true)

/-- CRED001 hardener: `chmod 600` on the config file (filesystem effect
only). -/
def hardenCRED001fn : HardenFn := fun _fs cfg _opts _ctx => (cfg, true)

/-- CRED003 hardener: `chmod 600` on the state `.env` file when it exists
(filesystem effect only). -/
def hardenCRED003fn : HardenFn := fun fs cfg _opts ctx =>
  (cfg, fs.fileExists (ctx.paths.stateDir ++ "/.env"))

/-- CRED004 hardener: `chmod 700` on the state directory (filesystem effect
only). -/
def hardenCRED004fn : HardenFn := fun _fs cfg _opts _ctx => (cfg, true)

/-- Per-channel step of the ACCESS001 hardener. -/
def access001FixChannel (ctx : ScanContext) (channel : ChannelConfig) :
    ChannelConfig :=
  if (channel.dmPolicy <|> channel.dm.bind (·.policy)) = some "open" then
    setDmPolicy channel ctx "pairing"
  else channel

/-- ACCESS001 hardener: rewrite every channel with an `open` DM policy to
`pairing`. -/
def hardenACCESS001fn : HardenFn := fun _fs cfg _opts ctx =>
  match cfg.channels with
  | none => (cfg, false)
  | some channels =>
      ({ cfg with
          channels :=
            some (channels.map (fun ch => (ch.1, access001FixChannel ctx ch.2))) },
        true)

/-- Per-channel step of the ACCESS003 hardener. -/
def access003FixChannel (channel : ChannelConfig) : ChannelConfig :=
  match channel.groups with
  | some groups =>
      { channel with
          groups := some (groups.map (fun g => (g.1, { requireMention := some true }))) }
  | none => channel

/-- ACCESS003 hardener: require a mention in every group of every channel. -/
def hardenACCESS003fn : HardenFn := fun _fs cfg _opts _ctx =>
  match cfg.channels with
  | none => (cfg, false)
  | some channels =>
      ({ cfg with
          channels := some (channels.map (fun ch => (ch.1, access003FixChannel ch.2))) },
        true)

/-- RUN001 hardener: set the logging level to `info`. -/
def hardenRUN001fn : HardenFn := fun _fs cfg _opts _ctx =>
  let l := cfg.logging.getD {}
  ({ cfg with logging := some { l with level := some "info" } }, true)

/-- RUN003 hardener: enable rate limiting. -/
def hardenRUN003fn : HardenFn := fun _fs cfg _opts _ctx =>
  let r := cfg.rateLimit.getD {}
  ({ cfg with rateLimit := some { r with enabled := some true } }, true)

/-- RUN004 hardener: enable the browser sandbox. -/
def hardenRUN004fn : HardenFn := fun _fs cfg _opts _ctx =>
  let b := cfg.browser.getD {}
  ({ cfg with browser := some { b with sandbox := some true } }, true)

/-- RUN005 hardener: enable headless browser mode. -/
def hardenRUN005fn : HardenFn := fun _fs cfg _opts _ctx =>
  let b := cfg.browser.getD {}
  ({ cfg with browser := some { b with headless := some true } }, true)

/-- RUN006 hardener: disable shell execution. -/
def hardenRUN006fn : HardenFn := fun _fs cfg _opts _ctx =>
  let s := cfg.shell.getD {}
  ({ cfg with shell := some { s with enabled := some false } }, true)

/-- RUN008 hardener: enable memory encryption. -/
def hardenRUN008fn : HardenFn := fun _fs cfg _opts _ctx =>
  let m := cfg.memory.getD {}
  ({ cfg with memory := some { m with encrypted := some true } }, true)

/-- One entry of the `HARDENERS` table. -/
structure HardenerEntry where
  code : String
  fn : HardenFn
  strictOnly : Bool := false
  description : String
  type : HardenerType

/-- NET001 row of the `HARDENERS` table. -/
def NET001Hardener : HardenerEntry :=
  { code := "NET001", fn := hardenNET001fn,
    description := "Bind gateway to localhost", type := .config }

/-- NET003 row of the `HARDENERS` table. -/
def NET003Hardener : HardenerEntry :=
  { code := "NET003", fn := hardenNET003fn,
    description := "Disable control UI auth bypass", type := .config }

/-- NET004 row of the `HARDENERS` table. -/
def NET004Hardener : HardenerEntry :=
  { code := "NET004", fn := hardenNET004fn,
    description := "Enable webhook authentication (legacy)", type := .config }

/-- CRED001 row of the `HARDENERS` table. -/
def CRED001Hardener : HardenerEntry :=
  { code := "CRED001", fn := hardenCRED001fn,
    description := "Fix config file permissions (chmod 600)", type := .filesystem }

/-- CRED003 row of the `HARDENERS` table. -/
def CRED003Hardener : HardenerEntry :=
  { code := "CRED003", fn := hardenCRED003fn,
    description := "Fix .env file permissions (chmod 600)", type := .filesystem }

/-- CRED004 row of the `HARDENERS` table. -/
def CRED004Hardener : HardenerEntry :=
  { code := "CRED004", fn := hardenCRED004fn,
    description := "Fix state directory permissions (chmod 700)", type := .filesystem }

/-- ACCESS001 row of the `HARDENERS` table. -/
def ACCESS001Hardener : HardenerEntry :=
  { code := "ACCESS001", fn := hardenACCESS001fn,
    description := "Set DM policy to pairing", type := .config }

/-- ACCESS003 row of the `HARDENERS` table. -/
def ACCESS003Hardener : HardenerEntry :=
  { code := "ACCESS003", fn := hardenACCESS003fn,
    description := "Require mentions in groups", type := .config }

/-- RUN001 row of the `HARDENERS` table. -/
def RUN001Hardener : HardenerEntry :=
  { code := "RUN001", fn := hardenRUN001fn,
    description := "Set logging level to info", type := .config }

/-- RUN003 row of the `HARDENERS` table. -/
def RUN003Hardener : HardenerEntry :=
  { code := "RUN003", fn := hardenRUN003fn,
    description := "Enable rate limiting", type := .config }

/-- RUN004 row of the `HARDENERS` table (strict-only). -/
def RUN004Hardener : HardenerEntry :=
  { code := "RUN004", fn := hardenRUN004fn, strictOnly := true,
    description := "Enable browser sandbox", type := .config }

/-- RUN005 row of the `HARDENERS` table. -/
def RUN005Hardener : HardenerEntry :=
  { code := "RUN005", fn := hardenRUN005fn,
    description := "Enable headless browser mode", type := .config }

/-- RUN006 row of the `HARDENERS` table (strict-only). -/
def RUN006Hardener : HardenerEntry :=
  { code := "RUN006", fn := hardenRUN006fn, strictOnly := true,
    description := "Disable shell execution", type := .config }

/-- RUN008 row of the `HARDENERS` table. -/
def RUN008Hardener : HardenerEntry :=
  { code := "RUN008", fn := hardenRUN008fn,
    description := "Enable memory encryption", type := .config }

/-- The `HARDENERS` table of `harden.ts`, in source order. -/
def HARDENERS : List HardenerEntry :=
  [NET001Hardener, NET003Hardener, NET004Hardener, CRED001Hardener,
   CRED003Hardener, CRED004Hardener, ACCESS001Hardener, ACCESS003Hardener,
   RUN001Hardener, RUN003Hardener, RUN004Hardener, RUN005Hardener,
   RUN006Hardener, RUN008Hardener]

/-! ### Specification-side predicates

These definitions transcribe the *claims'* wording (not the source) so that
source behaviour and claimed behaviour can be compared. -/

/-- Gateway exposure as the claim words it: `gateway.bind` is one of
`lan, tailnet, public, 0.0.0.0, ::, all`, **or** `gateway.host` is `0.0.0.0`
or `::`. -/
def specGatewayExposed (cfg : OpenClawConfig) : Bool :=
  (match cfg.gateway.bind (·.bind) with
   | some b => exposedBindValues.contains b
   | none => false)
    || (cfg.gateway.bind (·.host)) == some "0.0.0.0"
    || (cfg.gateway.bind (·.host)) == some "::"

/-- Waiver matching as the claim words it: codes equal and the waiver either
specifies no field-path or specifies one equal to the finding's path. -/
def specWaiverMatchesOrig (finding : Finding) (waiver : Waiver) : Bool :=
  finding.code == waiver.code
    && (waiver.path == none || finding.path == waiver.path)

/-- Waiver matching as amended: codes equal and the waiver specifies no
field-path, or an empty one, or one equal to the finding's path. -/
def specWaiverMatches (finding : Finding) (waiver : Waiver) : Bool :=
  finding.code == waiver.code
    && (waiver.path == none || waiver.path == some ""
        || finding.path == waiver.path)

/-! ### Concrete sample inputs for counterexamples and witnesses -/

/-- A scan context with schema `current` and no waivers. -/
def ctxCurrent : ScanContext :=
  { openClaw := { schema := .current }, paths := { stateDir := "/tmp/state" } }

/-- A configuration whose `bind` is a loopback address while `host` is
`0.0.0.0`: the source consults only `bind`, the claim's disjunction calls it
exposed. -/
def bindOverridesHostConfig : OpenClawConfig :=
  { gateway := some { host := some "0.0.0.0", bind := some "127.0.0.1" } }

/-- A finding carrying the path `gateway.host`. -/
def sampleFindingWithPath : Finding :=
  { code := "NET001", severity := .critical, path := some "gateway.host" }

/-- A waiver for the same code whose field-path is the empty string, which
JavaScript truthiness treats as "no path". -/
def emptyPathWaiver : Waiver :=
  { code := "NET001", reason := "test", expiresAt := "2999-01-01", path := some "" }

/-- The malicious-list skill of the concrete scenario. -/
def cryptoMinerSkill : SkillConfig :=
  { name := "crypto-miner-helper", source := some "community" }

/-! ### Helper lemmas -/

theorem foldl_sub_severity (l : List Finding) (a : Int) :
    l.foldl (fun s f => s - severityWeight f.severity) a = a - sumWeights l := by
  induction l generalizing a with
  | nil => simp [sumWeights]
  | cons f t ih =>
      simp only [List.foldl_cons, ih, sumWeights, List.map_cons, List.sum_cons]
      ring

theorem applyWaivers_loop_spec (ws : List Waiver) (l : List Finding)
    (acc : List Finding) (n : Nat) :
    l.foldl (applyWaiversStep ws) (acc, n) =
      (acc ++ l.filter (fun f => !ws.any (matchesWaiver f)),
        n + (l.filter (fun f => ws.any (matchesWaiver f))).length) := by
  induction l generalizing acc n with
  | nil => simp
  | cons f t ih =>
      by_cases h : ws.any (matchesWaiver f) = true
      · simp [applyWaiversStep, h, ih, List.filter_cons]
        omega
      · simp [applyWaiversStep, h, ih, List.filter_cons]

theorem applyWaivers_findings_eq (l : List Finding) (ws : List Waiver) :
    (applyWaivers l ws).findings = l.filter (fun f => !ws.any (matchesWaiver f)) := by
  unfold applyWaivers
  by_cases h : ws.isEmpty
  · have hw : ws = [] := by simpa using h
    subst hw
    simp
  · simp [h, applyWaivers_loop_spec]

theorem applyWaivers_count_eq (l : List Finding) (ws : List Waiver) :
    (applyWaivers l ws).waivedCount
      = (l.filter (fun f => ws.any (matchesWaiver f))).length := by
  unfold applyWaivers
  by_cases h : ws.isEmpty
  · have hw : ws = [] := by simpa using h
    subst hw
    simp
  · simp [h, applyWaivers_loop_spec]

theorem applyWaivers_nil (ws : List Waiver) :
    applyWaivers [] ws = { findings := [], waivedCount := 0 } := by
  unfold applyWaivers
  split <;> rfl

theorem filter_length_partition (p : Finding → Bool) (l : List Finding) :
    (l.filter (fun f => !p f)).length + (l.filter p).length = l.length := by
  induction l with
  | nil => simp
  | cons f t ih =>
      by_cases h : p f = true <;> simp [List.filter_cons, h] <;> omega

theorem matchesWaiver_eq_amended (f : Finding) (w : Waiver) :
    matchesWaiver f w = specWaiverMatches f w := by
  rcases w with ⟨code, r, c, e, path⟩
  rcases path with _ | p
  · by_cases hc : f.code = code <;>
      simp [matchesWaiver, specWaiverMatches, optStrTruthy, hc]
  · by_cases hc : f.code = code <;>
      by_cases hp : p = "" <;>
      simp [matchesWaiver, specWaiverMatches, optStrTruthy, hc, hp]

/-! ### C1 — `runScan` score arithmetic -/

/-- C1: for every configuration and scan context, `runScan` reports exactly
the findings surviving the waiver filter and scores them as 100 minus the sum
of per-finding severity weights (critical 25, high 15, medium 8, low 3) over
those findings, clamped below at 0: an empty surviving list scores exactly
100, summed weights above 100 score exactly 0, and the score is never
negative. -/
theorem runScan_score_spec (fs : FS) (cfg : OpenClawConfig) (ctx : ScanContext) :
    (runScan fs cfg ctx).findings
        = (applyWaivers (collectFindings fs cfg ctx) (ctx.waivers.getD [])).findings
      ∧ (runScan fs cfg ctx).score
        = max 0 (100 - sumWeights
            ((applyWaivers (collectFindings fs cfg ctx) (ctx.waivers.getD [])).findings))
      ∧ ((applyWaivers (collectFindings fs cfg ctx) (ctx.waivers.getD [])).findings = [] →
          (runScan fs cfg ctx).score = 100)
      ∧ (100 < sumWeights
            ((applyWaivers (collectFindings fs cfg ctx) (ctx.waivers.getD [])).findings) →
          (runScan fs cfg ctx).score = 0)
      ∧ 0 ≤ (runScan fs cfg ctx).score := by
  have hscore : (runScan fs cfg ctx).score
      = max 0 (100 - sumWeights
          ((applyWaivers (collectFindings fs cfg ctx) (ctx.waivers.getD [])).findings)) := by
    simp [runScan, foldl_sub_severity]
  refine ⟨rfl, hscore, ?_, ?_, ?_⟩
  · intro h
    rw [hscore, h]
    simp [sumWeights]
  · intro h
    rw [hscore]
    omega
  · rw [hscore]
    exact le_max_left 0 _

/-- Witness for C1: on the empty configuration with all probes absent, no
finding survives and the score is exactly 100. -/
theorem runScan_score_spec_witness :
    (runScan emptyFS emptyConfig {}).score = 100 :=
  (runScan_score_spec emptyFS emptyConfig {}).2.2.1 (by decide)

/-! ### C5 — waiver filter semantics (corrected) -/

/-- C5 counterexample: as stated, the claim says a waiver that *specifies* a
field-path only suppresses findings with that exact path; but the source
treats an empty-string path as "no path", so the waiver
`{ code := NET001, path := some "" }` removes the finding whose path is
`gateway.host`, which the claimed matcher would keep. -/
theorem applyWaivers_claim_counterexample :
    ¬ (∀ (findings : List Finding) (waivers : List Waiver),
        (applyWaivers findings waivers).findings
          = findings.filter (fun f => !waivers.any (specWaiverMatchesOrig f))) := by
  intro h
  have h2 := h [sampleFindingWithPath] [emptyPathWaiver]
  exact absurd h2 (by decide)

/-- C5 (amended): `applyWaivers` removes a finding exactly when some waiver
has the same code and either specifies no field-path, or an empty one, or a
field-path equal to the finding's path; the survivors keep their original
relative order (they form a sublist of the input) and `waivedCount` is the
number of findings removed, so surviving count plus `waivedCount` equals the
input count. -/
theorem applyWaivers_amended_spec (findings : List Finding) (waivers : List Waiver) :
    (applyWaivers findings waivers).findings
        = findings.filter (fun f => !waivers.any (specWaiverMatches f))
      ∧ (applyWaivers findings waivers).waivedCount
        = (findings.filter (fun f => waivers.any (specWaiverMatches f))).length
      ∧ (applyWaivers findings waivers).findings.length
          + (applyWaivers findings waivers).waivedCount = findings.length
      ∧ (applyWaivers findings waivers).findings.Sublist findings := by
  have hm : ∀ f : Finding, matchesWaiver f = specWaiverMatches f :=
    fun f => funext fun w => matchesWaiver_eq_amended f w
  refine ⟨?_, ?_, ?_, ?_⟩
  · rw [applyWaivers_findings_eq]
    simp [hm]
  · rw [applyWaivers_count_eq]
    simp [hm]
  · rw [applyWaivers_findings_eq, applyWaivers_count_eq]
    exact filter_length_partition _ findings
  · rw [applyWaivers_findings_eq]
    exact List.filter_sublist findings

/-- Witness for C5 (amended): the empty-path waiver removes the sample
finding, matching the amended matcher. -/
theorem applyWaivers_amended_spec_witness :
    (applyWaivers [sampleFindingWithPath] [emptyPathWaiver]).findings = [] :=
  ((applyWaivers_amended_spec [sampleFindingWithPath] [emptyPathWaiver]).1).trans
    (by decide)

/-! ### C6 — expired waivers are excluded by the loader -/

/-- C6: `loadWaivers` keeps exactly the waivers whose expiration parses to a
time not in the past; a waiver whose expiration is past or unparseable is
never in the active set, and `applyWaivers` itself compares no times, so a
finding removed by the filter over the loaded set is always matched by some
unexpired waiver — an expired waiver has no suppressive effect. -/
theorem loadWaivers_excludes_expired (storeExists : Bool)
    (parsed : Option WaiverFile) (parseDate : String → Option Int) (now : Int) :
    (∀ w ∈ loadWaivers storeExists parsed parseDate now,
        ∃ t, parseDate w.expiresAt = some t ∧ now ≤ t)
      ∧ (∀ w : Waiver, isExpired parseDate now w = true →
          w ∉ loadWaivers storeExists parsed parseDate now)
      ∧ (∀ (findings : List Finding) (f : Finding), f ∈ findings →
          f ∉ (applyWaivers findings (loadWaivers storeExists parsed parseDate now)).findings →
          ∃ w ∈ loadWaivers storeExists parsed parseDate now,
            matchesWaiver f w = true ∧ isExpired parseDate now w = false) := by
  have hmem : ∀ w ∈ loadWaivers storeExists parsed parseDate now,
      ∃ t, parseDate w.expiresAt = some t ∧ now ≤ t := by
    intro w hw
    unfold loadWaivers at hw
    split at hw
    · exact absurd hw (List.not_mem_nil w)
    · rcases parsed with _ | file
      · exact absurd hw (List.not_mem_nil w)
      · have hw' : w ∈ (file.waivers.getD []).filter
            (fun w => !isExpired parseDate now w) := hw
        have hcond := (List.mem_filter.mp hw').2
        unfold isExpired at hcond
        rcases ht : parseDate w.expiresAt with _ | t
        · rw [ht] at hcond
          simp at hcond
        · rw [ht] at hcond
          simp at hcond
          exact ⟨t, rfl, by omega⟩
  have hexp : ∀ w : Waiver, isExpired parseDate now w = true →
      w ∉ loadWaivers storeExists parsed parseDate now := by
    intro w hw hmemw
    obtain ⟨t, ht, hle⟩ := hmem w hmemw
    unfold isExpired at hw
    rw [ht] at hw
    simp at hw
    omega
  refine ⟨hmem, hexp, ?_⟩
  intro findings f hf hnot
  rw [applyWaivers_findings_eq] at hnot
  have hpred : ¬ ((!(loadWaivers storeExists parsed parseDate now).any
      (matchesWaiver f)) = true) := fun hp =>
    hnot (List.mem_filter.mpr ⟨hf, hp⟩)
  simp only [Bool.not_eq_true', Bool.not_eq_false] at hpred
  obtain ⟨w, hwmem, hwmatch⟩ := List.any_eq_true.mp hpred
  refine ⟨w, hwmem, hwmatch, ?_⟩
  obtain ⟨t, ht, hle⟩ := hmem w hwmem
  unfold isExpired
  rw [ht]
  simpa using by omega

/-- Witness for C6: with a date parser that fails on everything, a stored
waiver is expired and absent from the loaded active set. -/
theorem loadWaivers_excludes_expired_witness :
    ({ code := "X", expiresAt := "not-a-date" } : Waiver)
      ∉ loadWaivers true
          (some { waivers := some [{ code := "X", expiresAt := "not-a-date" }] })
          (fun _ => none) 0 :=
  (loadWaivers_excludes_expired true
      (some { waivers := some [{ code := "X", expiresAt := "not-a-date" }] })
      (fun _ => none) 0).2.1 _ rfl

/-! ### C10 — `scanApprovals` requires an approvals signal -/

/-- C10: when the schema is not `current`, no `approvals.exec` block exists,
no `tools.exec` block exists and `shell.enabled` is not `true`,
`scanApprovals` returns no findings, whatever the exec-approvals file
contains (the probe environment is universally quantified). -/
theorem scanApprovals_no_signals_empty (fs : FS) (cfg : OpenClawConfig)
    (ctx : ScanContext)
    (hschema : ctx.openClaw.schema ≠ .current)
    (happrovals : cfg.approvals.bind (·.exec) = none)
    (htools : cfg.tools.bind (·.exec) = none)
    (hshell : cfg.shell.bind (·.enabled) ≠ some true) :
    scanApprovals fs cfg ctx = [] := by
  have h1 : (ctx.openClaw.schema == SchemaVersion.current) = false := by
    simpa using hschema
  have h4 : optBoolTruthy (cfg.shell.bind (·.enabled)) = false := by
    unfold optBoolTruthy
    match hE : cfg.shell.bind (·.enabled) with
    | none => rfl
    | some true => exact absurd hE hshell
    | some false => rfl
  unfold scanApprovals
  simp [h1, happrovals, htools, h4]

/-- Witness for C10: a legacy-schema context with an `approvals` block that
has no `exec` sub-block produces no APPROVALS findings even though the
filesystem is unconstrained. -/
theorem scanApprovals_no_signals_empty_witness :
    scanApprovals emptyFS { approvals := some {} }
      { openClaw := { schema := .legacy } } = [] :=
  scanApprovals_no_signals_empty emptyFS { approvals := some {} }
    { openClaw := { schema := .legacy } } (by decide) rfl rfl (by decide)

/-! ### C9 — field resolvers and the `unknown`-schema fallback -/

/-- C9: the three field resolvers are total pure functions of the
configuration and schema (they are Lean functions, so totality and
determinism are by construction), and under the `unknown` schema each returns
the value of the populated dialect field whenever exactly one of the two is
populated; for the webhook resolver the `unknown` resolution then coincides
with the resolution of the populated field's own dialect and is never
`none`. -/
theorem resolvers_unknown_fallback :
    (∀ (cfg : OpenClawConfig) (t : String),
        (cfg.gateway.bind (·.auth) |>.bind (·.token)) = some t →
        cfg.gateway.bind (·.authToken) = none →
        resolveGatewayAuthToken cfg .unknown = some t)
      ∧ (∀ (cfg : OpenClawConfig) (t : String),
          (cfg.gateway.bind (·.auth) |>.bind (·.token)) = none →
          cfg.gateway.bind (·.authToken) = some t →
          resolveGatewayAuthToken cfg .unknown = some t)
      ∧ (∀ (ch : ChannelConfig) (p : String),
          ch.dmPolicy = some p →
          ch.dm.bind (·.policy) = none →
          resolveDmPolicy ch .unknown = some p)
      ∧ (∀ (ch : ChannelConfig) (p : String),
          ch.dmPolicy = none →
          ch.dm.bind (·.policy) = some p →
          resolveDmPolicy ch .unknown = some p)
      ∧ (∀ (cfg : OpenClawConfig) (h : HooksConfig),
          cfg.hooks = some h →
          cfg.webhooks = none →
          resolveWebhookConfig cfg .unknown = resolveWebhookConfig cfg .current
            ∧ (resolveWebhookConfig cfg .unknown).isSome = true)
      ∧ (∀ (cfg : OpenClawConfig) (w : WebhookConfig),
          cfg.hooks = none →
          cfg.webhooks = some w →
          resolveWebhookConfig cfg .unknown = resolveWebhookConfig cfg .legacy
            ∧ (resolveWebhookConfig cfg .unknown).isSome = true) := by
  refine ⟨?_, ?_, ?_, ?_, ?_, ?_⟩
  · intro cfg t hn _hf
    simp [resolveGatewayAuthToken, hn]
  · intro cfg t hn hf
    simp [resolveGatewayAuthToken, hn, hf]
  · intro ch p hp _hn
    simp [resolveDmPolicy, hp]
  · intro ch p hp hn
    simp [resolveDmPolicy, hp, hn]
  · intro cfg h hh _hw
    constructor <;> simp [resolveWebhookConfig, hh]
  · intro cfg w hh hw
    constructor <;> simp [resolveWebhookConfig, hh, hw]

/-- Witness for C9: a configuration populating only the flat legacy
`gateway.authToken` resolves to that token under the `unknown` schema. -/
theorem resolvers_unknown_fallback_witness :
    resolveGatewayAuthToken { gateway := some { authToken := some "tok" } }
      .unknown = some "tok" :=
  resolvers_unknown_fallback.2.1
    { gateway := some { authToken := some "tok" } } "tok" rfl rfl

/-! ### C2 — NET001/NET002 gateway findings (corrected) -/

/-- C2 counterexample: the claim's exposure condition is the disjunction
"bind in the exposed set **or** host in 0.0.0.0/::", but the source consults
the host only when `bind` is absent or empty. With `bind = 127.0.0.1` and
`host = 0.0.0.0` and no auth token, the claim demands a NET001 finding while
`scanNetwork` emits none. -/
theorem scanNetwork_claim_counterexample :
    ¬ (∀ (cfg : OpenClawConfig) (ctx : ScanContext),
        (specGatewayExposed cfg = true
            ∧ resolveGatewayAuthToken cfg ctx.openClaw.schema = none)
          ↔ ∃ f ∈ scanNetwork cfg ctx, f.code = "NET001"
              ∧ f.severity = Severity.critical) := by
  intro h
  have h2 := (h bindOverridesHostConfig ctxCurrent).mp ⟨by decide, by decide⟩
  rcases h2 with ⟨f, hf, _⟩
  rw [show scanNetwork bindOverridesHostConfig ctxCurrent = [] from by decide] at hf
  exact absurd hf (List.not_mem_nil f)

/-- C2 (amended): `scanNetwork` emits NET001 with severity critical exactly
when the gateway is exposed — where a present non-empty `bind` alone decides
exposure via the lowercased membership in
`lan, tailnet, public, 0.0.0.0, ::, all`, and `host ∈ 0.0.0.0, ::` is
consulted only when `bind` is absent or empty — and the resolved auth token
is absent or empty; when the gateway is exposed and the resolved token is
present and non-empty it emits NET002 with severity medium instead. -/
theorem scanNetwork_gateway_findings (cfg : OpenClawConfig) (ctx : ScanContext) :
    ((∃ f ∈ scanNetwork cfg ctx, f.code = "NET001" ∧ f.severity = Severity.critical)
        ↔ (gatewayExposed cfg = true
            ∧ optStrTruthy (resolveGatewayAuthToken cfg ctx.openClaw.schema) = false))
      ∧ ((∃ f ∈ scanNetwork cfg ctx, f.code = "NET002" ∧ f.severity = Severity.medium)
        ↔ (gatewayExposed cfg = true
            ∧ optStrTruthy (resolveGatewayAuthToken cfg ctx.openClaw.schema) = true)) := by
  rcases hw : resolveWebhookConfig cfg ctx.openClaw.schema with _ | w <;>
    by_cases hex : gatewayExposed cfg = true <;>
    by_cases hat : optStrTruthy (resolveGatewayAuthToken cfg ctx.openClaw.schema) = true <;>
    constructor <;>
    simp_all [scanNetwork] <;>
    try split_ifs <;> try simp_all
  all_goals
    intro x hx hcode
    rcases hx with ⟨_, rfl⟩ | ⟨_, rfl⟩ <;> simp at hcode

/-- Witness for C2 (amended): the host-only exposed configuration with no
token produces a NET001 finding. -/
theorem scanNetwork_gateway_findings_witness :
    ∃ f ∈ scanNetwork { gateway := some { host := some "0.0.0.0" } } ctxCurrent,
      f.code = "NET001" ∧ f.severity = Severity.critical :=
  (scanNetwork_gateway_findings { gateway := some { host := some "0.0.0.0" } }
      ctxCurrent).1.mpr ⟨by decide, by decide⟩

/-! ### C3 — schema detection priority order -/

/-- C3: every version produced by `parseOpenClawVersion` carries a numeric
major component and a `date` or `semver` format tag; for all such detected
versions (or no version at all), `detectSchemaVersion` follows the claimed
priority order, first match wins: the current-dialect signals, else the
legacy-dialect signals, else, when a version exists, `current` for a date
version with major ≥ 2026 or a semver version with major ≥ 2 and `legacy`
otherwise, else `unknown`. -/
theorem detectSchemaVersion_follows_priority :
    (∀ (raw : String) (info : OpenClawVersionInfo),
        parseOpenClawVersion raw = some info →
        info.major.isSome = true ∧ info.format ≠ VersionFormat.unknownFormat)
      ∧ (∀ (cfg : OpenClawConfig) (version : Option OpenClawVersionInfo),
          (∀ info, version = some info →
            info.major.isSome = true ∧ info.format ≠ VersionFormat.unknownFormat) →
          detectSchemaVersion cfg version = detectSchemaVersionSpec cfg version) := by
  constructor
  · intro raw info h
    simp only [parseOpenClawVersion] at h
    split at h
    · exact absurd h (by simp)
    · split at h
      · exact absurd h (by simp)
      · rw [Option.some.injEq] at h
        subst h
        refine ⟨rfl, ?_⟩
        dsimp only
        split <;> simp
  · intro cfg version hWF
    unfold detectSchemaVersion detectSchemaVersionSpec
    by_cases hcur : hasCurrentSignals cfg = true
    · simp [hcur]
    · by_cases hleg : hasLegacySignals cfg = true
      · simp [hcur, hleg]
      · rcases version with _ | v
        · simp [hcur, hleg]
        · obtain ⟨hmaj, hfmt⟩ := hWF v rfl
          rcases hm : v.major with _ | m
          · rw [hm] at hmaj
            simp at hmaj
          · rcases hv : v.format
            · by_cases h26 : 2026 ≤ m <;> simp [hcur, hleg, hv, hm, h26]
            · by_cases h2 : 2 ≤ m <;> simp [hcur, hleg, hv, hm, h2]
            · exact absurd hv hfmt

/-- Witness for C3: a parsed date version `2026.1.0` is well formed and the
detection agrees with the claimed cascade on the empty configuration. -/
theorem detectSchemaVersion_follows_priority_witness :
    detectSchemaVersion emptyConfig
        (some { raw := "2026.1.0", major := some 2026, minor := some 1,
                patch := some 0, format := .date })
      = detectSchemaVersionSpec emptyConfig
          (some { raw := "2026.1.0", major := some 2026, minor := some 1,
                  patch := some 0, format := .date }) :=
  detectSchemaVersion_follows_priority.2 emptyConfig _
    (fun info hinfo => by
      rw [Option.some.injEq] at hinfo
      subst hinfo
      exact ⟨rfl, by simp⟩)

/-! ### C4 — the empty configuration scans clean -/

/-- C4: with every filesystem and process probe reporting absence, each of
the eight evaluators returns no finding on the empty configuration, for any
scan context, and `runScan` returns zero findings with score exactly 100. -/
theorem empty_config_scans_clean (fs : FS) (ctx : ScanContext)
    (hfe : ∀ p, fs.fileExists p = false)
    (hfp : ∀ p, fs.filePerms p = none)
    (hpe : ∀ p, fs.pathExists p = false)
    (hpr : ∀ p, fs.probeOk p = false) :
    scanNetwork emptyConfig ctx = []
      ∧ scanCredentials fs = []
      ∧ scanAccess emptyConfig ctx = []
      ∧ scanSkills emptyConfig = []
      ∧ scanRuntime fs emptyConfig = []
      ∧ scanApprovals fs emptyConfig ctx = []
      ∧ scanWebTools emptyConfig ctx = []
      ∧ scanMemoryBackend fs emptyConfig ctx = []
      ∧ (runScan fs emptyConfig ctx).findings = []
      ∧ (runScan fs emptyConfig ctx).score = 100 := by
  obtain ⟨⟨ver, sch, src⟩, ⟨cpath, sdir⟩, wv⟩ := ctx
  have hnet : scanNetwork emptyConfig ⟨⟨ver, sch, src⟩, ⟨cpath, sdir⟩, wv⟩ = [] := by
    cases sch <;> rfl
  have hcred : scanCredentials fs = [] := by
    unfold scanCredentials
    simp [hfp, hfe]
  have haccess : scanAccess emptyConfig ⟨⟨ver, sch, src⟩, ⟨cpath, sdir⟩, wv⟩ = [] := rfl
  have hskills : scanSkills emptyConfig = [] := rfl
  have hruntime : scanRuntime fs emptyConfig = [] := rfl
  have hexecempty : isExecAllowed emptyConfig = false := rfl
  have happr : scanApprovals fs emptyConfig ⟨⟨ver, sch, src⟩, ⟨cpath, sdir⟩, wv⟩ = [] := by
    cases sch
    · rfl
    · simp [scanApprovals, hfe, hexecempty]
    · rfl
  have hweb : scanWebTools emptyConfig ⟨⟨ver, sch, src⟩, ⟨cpath, sdir⟩, wv⟩ = [] := rfl
  have hmem : scanMemoryBackend fs emptyConfig ⟨⟨ver, sch, src⟩, ⟨cpath, sdir⟩, wv⟩ = [] := rfl
  have hcollect :
      collectFindings fs emptyConfig ⟨⟨ver, sch, src⟩, ⟨cpath, sdir⟩, wv⟩ = [] := by
    simp [collectFindings, hnet, hcred, haccess, hskills, hruntime, happr, hweb, hmem]
  refine ⟨hnet, hcred, haccess, hskills, hruntime, happr, hweb, hmem, ?_, ?_⟩
  · simp [runScan, hcollect, applyWaivers_nil]
  · simp [runScan, hcollect, applyWaivers_nil]

/-- Witness for C4: the all-absent probe environment with a current-schema
context scores the empty configuration at exactly 100. -/
theorem empty_config_scans_clean_witness :
    (runScan emptyFS emptyConfig
        { openClaw := { schema := .current }, paths := { stateDir := "/s" } }).score
      = 100 :=
  (empty_config_scans_clean emptyFS
      { openClaw := { schema := .current }, paths := { stateDir := "/s" } }
      (fun _ => rfl) (fun _ => rfl) (fun _ => rfl)
      (fun _ => rfl)).2.2.2.2.2.2.2.2.2

/-! ### C7 — SKILL001 short-circuits the per-skill checks -/

theorem skillRiskyCheck_prepend (acc : SkillAcc) (s : SkillConfig)
    (pre : List Finding) :
    skillRiskyCheck { acc with findings := pre ++ acc.findings } s
      = { skillRiskyCheck acc s with
          findings := pre ++ (skillRiskyCheck acc s).findings } := by
  unfold skillRiskyCheck
  split_ifs <;> simp

theorem skillUnverifiedCheck_prepend (acc : SkillAcc) (s : SkillConfig)
    (pre : List Finding) :
    skillUnverifiedCheck { acc with findings := pre ++ acc.findings } s
      = { skillUnverifiedCheck acc s with
          findings := pre ++ (skillUnverifiedCheck acc s).findings } := by
  unfold skillUnverifiedCheck
  split_ifs <;> simp

theorem skillPermissionsCheck_prepend (acc : SkillAcc) (s : SkillConfig)
    (pre : List Finding) :
    skillPermissionsCheck { acc with findings := pre ++ acc.findings } s
      = { skillPermissionsCheck acc s with
          findings := pre ++ (skillPermissionsCheck acc s).findings } := by
  unfold skillPermissionsCheck
  rcases hp : s.permissions with _ | ps <;> simp only [] <;> split_ifs <;> simp

theorem skillHeartbeatCheck_prepend (acc : SkillAcc) (s : SkillConfig)
    (pre : List Finding) :
    skillHeartbeatCheck { acc with findings := pre ++ acc.findings } s
      = { skillHeartbeatCheck acc s with
          findings := pre ++ (skillHeartbeatCheck acc s).findings } := by
  unfold skillHeartbeatCheck
  split_ifs <;> simp

theorem skillChecksumCheck_prepend (acc : SkillAcc) (s : SkillConfig)
    (pre : List Finding) :
    skillChecksumCheck { acc with findings := pre ++ acc.findings } s
      = { skillChecksumCheck acc s with
          findings := pre ++ (skillChecksumCheck acc s).findings } := by
  unfold skillChecksumCheck
  split_ifs <;> simp

theorem processSkill_prepend (acc : SkillAcc) (s : SkillConfig)
    (pre : List Finding) :
    processSkill { acc with findings := pre ++ acc.findings } s
      = { processSkill acc s with
          findings := pre ++ (processSkill acc s).findings } := by
  unfold processSkill
  split_ifs with h
  · simp
  · rw [skillRiskyCheck_prepend, skillUnverifiedCheck_prepend,
      skillPermissionsCheck_prepend, skillHeartbeatCheck_prepend,
      skillChecksumCheck_prepend]

theorem foldl_processSkill_prepend (skills : List SkillConfig) (acc : SkillAcc)
    (pre : List Finding) :
    skills.foldl processSkill { acc with findings := pre ++ acc.findings }
      = { skills.foldl processSkill acc with
          findings := pre ++ (skills.foldl processSkill acc).findings } := by
  induction skills generalizing acc with
  | nil => simp
  | cons s t ih =>
      simp only [List.foldl_cons]
      rw [processSkill_prepend, ih]

theorem skillAggregateFindings_update (acc : SkillAcc) (x : List Finding) :
    skillAggregateFindings { acc with findings := x }
      = skillAggregateFindings acc := rfl

theorem scanSkills_cons (cfg : OpenClawConfig) (s : SkillConfig)
    (rest : List SkillConfig) :
    scanSkills { cfg with skills := some (s :: rest) }
      = ((s :: rest).foldl processSkill {}).findings
          ++ skillAggregateFindings ((s :: rest).foldl processSkill {}) := rfl

/-- C7: a skill on the known-malicious list contributes exactly its SKILL001
finding and is excluded from every other per-extension check of the same pass
(the accumulators feeding SKILL002–SKILL006 are untouched); scanning past
such a skill prepends exactly one SKILL001 finding to the scan of the
remaining skills, and the concrete scenario
`skills = [crypto-miner-helper from community]` yields exactly one finding,
code SKILL001, severity critical. -/
theorem skill001_short_circuit :
    (∀ (acc : SkillAcc) (skill : SkillConfig),
        KNOWN_MALICIOUS_SKILLS.contains skill.name = true →
        processSkill acc skill
          = { acc with findings := acc.findings ++ [skill001Finding skill] })
      ∧ (∀ (cfg : OpenClawConfig) (skill : SkillConfig) (rest : List SkillConfig),
          KNOWN_MALICIOUS_SKILLS.contains skill.name = true →
          scanSkills { cfg with skills := some (skill :: rest) }
            = skill001Finding skill :: scanSkills { cfg with skills := some rest })
      ∧ scanSkills { skills := some [cryptoMinerSkill] }
          = [skill001Finding cryptoMinerSkill]
      ∧ (skill001Finding cryptoMinerSkill).code = "SKILL001"
      ∧ (skill001Finding cryptoMinerSkill).severity = Severity.critical := by
  have hmal : ∀ (acc : SkillAcc) (skill : SkillConfig),
      KNOWN_MALICIOUS_SKILLS.contains skill.name = true →
      processSkill acc skill
        = { acc with findings := acc.findings ++ [skill001Finding skill] } := by
    intro acc skill h
    unfold processSkill
    rw [if_pos h]
  refine ⟨hmal, ?_, rfl, rfl, rfl⟩
  intro cfg skill rest h
  rw [scanSkills_cons]
  simp only [List.foldl_cons]
  have hstep : processSkill {} skill
      = { ({} : SkillAcc) with
          findings := [skill001Finding skill] ++ ({} : SkillAcc).findings } := by
    rw [hmal {} skill h]
    simp
  rw [hstep, foldl_processSkill_prepend, skillAggregateFindings_update]
  cases rest with
  | nil => rfl
  | cons r t =>
      rw [scanSkills_cons]
      simp

/-- Witness for C7: processing the community-sourced `crypto-miner-helper`
skill appends exactly its SKILL001 finding and leaves every accumulator
untouched. -/
theorem skill001_short_circuit_witness :
    processSkill {} cryptoMinerSkill
      = { ({} : SkillAcc) with
          findings := ({} : SkillAcc).findings
            ++ [skill001Finding cryptoMinerSkill] } :=
  skill001_short_circuit.1 {} cryptoMinerSkill rfl

/-! ### C8 — config-mutation hardeners are idempotent -/

theorem hardenNET001fn_idem (fs : FS) (cfg : OpenClawConfig)
    (o : HardenOptions) (ctx : ScanContext) :
    (hardenNET001fn fs (hardenNET001fn fs cfg o ctx).1 o ctx).1
      = (hardenNET001fn fs cfg o ctx).1 := by
  have hl : optStrTruthy (some "loopback") = true := rfl
  unfold hardenNET001fn
  by_cases h : (ctx.openClaw.schema == SchemaVersion.current) = true
  · simp [h]
  · by_cases hb : optStrTruthy (cfg.gateway.getD {}).bind = true
    · simp [h, hb, hl]
    · simp [h, hb]

theorem hardenNET003fn_idem (fs : FS) (cfg : OpenClawConfig)
    (o : HardenOptions) (ctx : ScanContext) :
    (hardenNET003fn fs (hardenNET003fn fs cfg o ctx).1 o ctx).1
      = (hardenNET003fn fs cfg o ctx).1 := rfl

theorem hardenNET004fn_idem (fs : FS) (cfg : OpenClawConfig)
    (o : HardenOptions) (ctx : ScanContext) :
    (hardenNET004fn fs (hardenNET004fn fs cfg o ctx).1 o ctx).1
      = (hardenNET004fn fs cfg o ctx).1 := by
  unfold hardenNET004fn
  by_cases h : (ctx.openClaw.schema == SchemaVersion.current) = true
  · simp [h]
  · simp [h]

theorem access001FixChannel_idem (ctx : ScanContext) (ch : ChannelConfig) :
    access001FixChannel ctx (access001FixChannel ctx ch)
      = access001FixChannel ctx ch := by
  rcases ch with ⟨dmP, dm, af, gr⟩
  unfold access001FixChannel setDmPolicy
  cases hsch : ctx.openClaw.schema <;>
    rcases dmP with _ | p <;>
    rcases dm with _ | ⟨_ | q⟩ <;>
    (try simp_all) <;>
    (try split_ifs <;> simp_all)

theorem hardenACCESS001fn_idem (fs : FS) (cfg : OpenClawConfig)
    (o : HardenOptions) (ctx : ScanContext) :
    (hardenACCESS001fn fs (hardenACCESS001fn fs cfg o ctx).1 o ctx).1
      = (hardenACCESS001fn fs cfg o ctx).1 := by
  unfold hardenACCESS001fn
  rcases hch : cfg.channels with _ | chans
  · simp [hch]
  · simp only [hch, List.map_map]
    have hmap : List.map
        ((fun ch => (ch.1, access001FixChannel ctx ch.2))
          ∘ fun ch => (ch.1, access001FixChannel ctx ch.2)) chans
        = List.map (fun ch => (ch.1, access001FixChannel ctx ch.2)) chans := by
      refine List.map_congr_left ?_
      intro p _
      simp [Function.comp, access001FixChannel_idem]
    rw [hmap]

theorem access003FixChannel_idem (ch : ChannelConfig) :
    access003FixChannel (access003FixChannel ch) = access003FixChannel ch := by
  rcases hg : ch.groups with _ | gs
  · simp [access003FixChannel, hg]
  · simp [access003FixChannel, hg, List.map_map, Function.comp]

theorem hardenACCESS003fn_idem (fs : FS) (cfg : OpenClawConfig)
    (o : HardenOptions) (ctx : ScanContext) :
    (hardenACCESS003fn fs (hardenACCESS003fn fs cfg o ctx).1 o ctx).1
      = (hardenACCESS003fn fs cfg o ctx).1 := by
  unfold hardenACCESS003fn
  rcases hch : cfg.channels with _ | chans
  · simp [hch]
  · simp only [hch, List.map_map]
    have hmap : List.map
        ((fun ch => (ch.1, access003FixChannel ch.2))
          ∘ fun ch => (ch.1, access003FixChannel ch.2)) chans
        = List.map (fun ch => (ch.1, access003FixChannel ch.2)) chans := by
      refine List.map_congr_left ?_
      intro p _
      simp [Function.comp, access003FixChannel_idem]
    rw [hmap]

/-- C8: every finding code that maps to a `config`-tagged hardener in the
`HARDENERS` table has an idempotent remediation action: for every probe
environment, configuration, option record and scan context, applying the
action to its own output leaves the configuration unchanged. -/
theorem config_hardeners_idempotent :
    ∀ e ∈ HARDENERS, e.type = HardenerType.config →
      ∀ (fs : FS) (cfg : OpenClawConfig) (o : HardenOptions) (ctx : ScanContext),
        (e.fn fs (e.fn fs cfg o ctx).1 o ctx).1 = (e.fn fs cfg o ctx).1 := by
  intro e he htype fs cfg o ctx
  simp only [HARDENERS, List.mem_cons, List.not_mem_nil, or_false] at he
  rcases he with h|h|h|h|h|h|h|h|h|h|h|h|h|h <;> subst h
  · exact hardenNET001fn_idem fs cfg o ctx
  · exact hardenNET003fn_idem fs cfg o ctx
  · exact hardenNET004fn_idem fs cfg o ctx
  · exact absurd htype (by decide)
  · exact absurd htype (by decide)
  · exact absurd htype (by decide)
  · exact hardenACCESS001fn_idem fs cfg o ctx
  · exact hardenACCESS003fn_idem fs cfg o ctx
  · rfl
  · rfl
  · rfl
  · rfl
  · rfl
  · rfl

/-- Witness for C8: the NET001 hardener, applied twice to the sample
bind-and-host configuration under the current schema, changes nothing on the
second pass. -/
theorem config_hardeners_idempotent_witness :
    (NET001Hardener.fn emptyFS
        (NET001Hardener.fn emptyFS bindOverridesHostConfig {} ctxCurrent).1 {}
        ctxCurrent).1
      = (NET001Hardener.fn emptyFS bindOverridesHostConfig {} ctxCurrent).1 :=
  config_hardeners_idempotent NET001Hardener
    (by simp [HARDENERS]) rfl emptyFS bindOverridesHostConfig {} ctxCurrent

end Rubberband
